import Mathlib

/-!
Verification development for the durable agent-orchestration service.

The Python source is shallowly embedded: JSON-like Python values are the
inductive type `JVal`; each relevant function of the repository is translated
into a Lean definition keeping the source's control flow; external
collaborators (the AI backend, the message transport, the JSON parser, the
durable-functions runtime) are parameters or small explicit models.
-/

/-- JSON-like Python value: the values that flow through queue bodies,
activity inputs/outputs and agent responses. `null` doubles as Python's
`None`. Mappings are association lists (Python dicts have unique keys;
lookups take the first binding). -/
inductive JVal where
  | null : JVal
  | bool : Bool → JVal
  | num : Int → JVal
  | str : String → JVal
  | arr : List JVal → JVal
  | obj : List (String × JVal) → JVal

mutual

/-- Boolean equality on `JVal` (Python `==` on JSON-like values). -/
def JVal.beq : JVal → JVal → Bool
  | .null, .null => true
  | .bool a, .bool b => a == b
  | .num a, .num b => a == b
  | .str a, .str b => a == b
  | .arr a, .arr b => beqArr a b
  | .obj a, .obj b => beqObj a b
  | _, _ => false

def beqArr : List JVal → List JVal → Bool
  | [], [] => true
  | x :: xs, y :: ys => JVal.beq x y && beqArr xs ys
  | _, _ => false

def beqObj : List (String × JVal) → List (String × JVal) → Bool
  | [], [] => true
  | (k, v) :: xs, (l, w) :: ys => k == l && JVal.beq v w && beqObj xs ys
  | _, _ => false

end

mutual

theorem JVal.eq_of_beq : ∀ a b : JVal, JVal.beq a b = true → a = b
  | .null, .null, _ => rfl
  | .bool a, .bool b, h => by simp [JVal.beq] at h; subst h; rfl
  | .num a, .num b, h => by simp [JVal.beq] at h; subst h; rfl
  | .str a, .str b, h => by simp [JVal.beq] at h; subst h; rfl
  | .arr a, .arr b, h => by
      rw [eqArr_of_beq a b (by simpa [JVal.beq] using h)]
  | .obj a, .obj b, h => by
      rw [eqObj_of_beq a b (by simpa [JVal.beq] using h)]
  | .null, .bool _, h => by simp [JVal.beq] at h
  | .null, .num _, h => by simp [JVal.beq] at h
  | .null, .str _, h => by simp [JVal.beq] at h
  | .null, .arr _, h => by simp [JVal.beq] at h
  | .null, .obj _, h => by simp [JVal.beq] at h
  | .bool _, .null, h => by simp [JVal.beq] at h
  | .bool _, .num _, h => by simp [JVal.beq] at h
  | .bool _, .str _, h => by simp [JVal.beq] at h
  | .bool _, .arr _, h => by simp [JVal.beq] at h
  | .bool _, .obj _, h => by simp [JVal.beq] at h
  | .num _, .null, h => by simp [JVal.beq] at h
  | .num _, .bool _, h => by simp [JVal.beq] at h
  | .num _, .str _, h => by simp [JVal.beq] at h
  | .num _, .arr _, h => by simp [JVal.beq] at h
  | .num _, .obj _, h => by simp [JVal.beq] at h
  | .str _, .null, h => by simp [JVal.beq] at h
  | .str _, .bool _, h => by simp [JVal.beq] at h
  | .str _, .num _, h => by simp [JVal.beq] at h
  | .str _, .arr _, h => by simp [JVal.beq] at h
  | .str _, .obj _, h => by simp [JVal.beq] at h
  | .arr _, .null, h => by simp [JVal.beq] at h
  | .arr _, .bool _, h => by simp [JVal.beq] at h
  | .arr _, .num _, h => by simp [JVal.beq] at h
  | .arr _, .str _, h => by simp [JVal.beq] at h
  | .arr _, .obj _, h => by simp [JVal.beq] at h
  | .obj _, .null, h => by simp [JVal.beq] at h
  | .obj _, .bool _, h => by simp [JVal.beq] at h
  | .obj _, .num _, h => by simp [JVal.beq] at h
  | .obj _, .str _, h => by simp [JVal.beq] at h
  | .obj _, .arr _, h => by simp [JVal.beq] at h

theorem eqArr_of_beq : ∀ a b : List JVal, beqArr a b = true → a = b
  | [], [], _ => rfl
  | x :: xs, y :: ys, h => by
      have hx : JVal.beq x y = true := by
        have := h; simp [beqArr] at this; exact this.1
      have hxs : beqArr xs ys = true := by
        have := h; simp [beqArr] at this; exact this.2
      rw [JVal.eq_of_beq x y hx, eqArr_of_beq xs ys hxs]
  | [], _ :: _, h => by simp [beqArr] at h
  | _ :: _, [], h => by simp [beqArr] at h

theorem eqObj_of_beq : ∀ a b : List (String × JVal), beqObj a b = true → a = b
  | [], [], _ => rfl
  | (k, v) :: xs, (l, w) :: ys, h => by
      have hk : k = l := by
        have := h; simp [beqObj] at this; exact this.1.1
      have hv : JVal.beq v w = true := by
        have := h; simp [beqObj] at this; exact this.1.2
      have hxs : beqObj xs ys = true := by
        have := h; simp [beqObj] at this; exact this.2
      rw [hk, JVal.eq_of_beq v w hv, eqObj_of_beq xs ys hxs]
  | [], _ :: _, h => by simp [beqObj] at h
  | _ :: _, [], h => by simp [beqObj] at h

end

mutual

theorem JVal.beq_refl : ∀ a : JVal, JVal.beq a a = true
  | .null => rfl
  | .bool a => by simp [JVal.beq]
  | .num a => by simp [JVal.beq]
  | .str a => by simp [JVal.beq]
  | .arr a => by simp [JVal.beq]; exact beqArr_refl a
  | .obj a => by simp [JVal.beq]; exact beqObj_refl a

theorem beqArr_refl : ∀ a : List JVal, beqArr a a = true
  | [] => rfl
  | x :: xs => by simp [beqArr]; exact ⟨JVal.beq_refl x, beqArr_refl xs⟩

theorem beqObj_refl : ∀ a : List (String × JVal), beqObj a a = true
  | [] => rfl
  | (k, v) :: xs => by simp [beqObj]; exact ⟨JVal.beq_refl v, beqObj_refl xs⟩

end

instance : DecidableEq JVal := fun a b =>
  if h : JVal.beq a b = true then isTrue (JVal.eq_of_beq a b h)
  else isFalse (fun he => h (he ▸ JVal.beq_refl a))

/-- Dictionary lookup: `d.get(k)` restricted to the stored bindings
(`none` when the key is absent). -/
def lookupKey (kvs : List (String × JVal)) (k : String) : Option JVal :=
  (kvs.find? (fun p => p.1 == k)).map Prod.snd

/-- Python truthiness of a JSON-like value: `None`, `False`, `0`, `""`,
`[]` and the empty mapping are falsy, everything else truthy. -/
def JVal.truthy : JVal → Bool
  | .null => false
  | .bool b => b
  | .num n => n != 0
  | .str s => s != ""
  | .arr xs => !xs.isEmpty
  | .obj kvs => !kvs.isEmpty

mutual
/-- Python `str()` rendering as used inside the source's f-strings.
Scalars follow Python exactly; for lists/mappings the rendering is a
bracketed recursive form (no claim below depends on those branches). -/
def JVal.pyStr : JVal → String
  | .null => "None"
  | .bool true => "True"
  | .bool false => "False"
  | .num n => toString n
  | .str s => s
  | .arr xs => "[" ++ pyStrList xs ++ "]"
  | .obj kvs => "\x7b" ++ pyStrObj kvs ++ "\x7d"

def pyStrList : List JVal → String
  | [] => ""
  | [x] => JVal.pyStr x
  | x :: y :: xs => JVal.pyStr x ++ ", " ++ pyStrList (y :: xs)

def pyStrObj : List (String × JVal) → String
  | [] => ""
  | [(k, v)] => k ++ ": " ++ JVal.pyStr v
  | (k, v) :: y :: xs => k ++ ": " ++ JVal.pyStr v ++ ", " ++ pyStrObj (y :: xs)
end

example : JVal.pyStr (.str "triage") = "triage" := rfl
example : lookupKey [("a", .num 1), ("b", .num 2)] "b" = some (.num 2) := by decide

/-! ## Dataclasses (`agents/utility/util_classes.py`) -/

/-- The `TokenUsage` dataclass: prompt/completion/total token counts. -/
structure TokenUsage where
  prompt_tokens : Int
  completion_tokens : Int
  total_tokens : Int
deriving DecidableEq

/-- The `NextAction` dataclass: what the orchestrator should queue next.
The declared Python types are `target_queue: str` and `payload: dict`, but
dataclasses do not enforce annotations and `_determine_next_action` stores
whatever JSON value the agent produced, so both fields are `JVal` here. -/
structure NextAction where
  target_queue : JVal
  payload : JVal
deriving DecidableEq

/-- The `AgentResponse` dataclass: agent execution result plus workflow routing.
Fields follow the declared Python types; `responses` holds opaque JSON
fragments, and `agent_type` is `JVal` because `run_agent_workflow` assigns
it from `workflowInput.get("agent_type")` (`.null` models Python `None`). -/
structure AgentResponse where
  status : String
  responses : List JVal
  thread_id : Option String := none
  reason : Option String := none
  usage : Option TokenUsage := none
  tool_calls : Int := 0
  inference_rounds : Int := 0
  agent_type : JVal := .null
  model_name : Option String := none
  next_action : Option NextAction := none
deriving DecidableEq

/-- Python `dataclasses.asdict` on `TokenUsage`. -/
def TokenUsage.asdict (u : TokenUsage) : JVal :=
  .obj [("prompt_tokens", .num u.prompt_tokens),
        ("completion_tokens", .num u.completion_tokens),
        ("total_tokens", .num u.total_tokens)]

/-- Python `dataclasses.asdict` on `NextAction`. -/
def NextAction.asdict (a : NextAction) : JVal :=
  .obj [("target_queue", a.target_queue), ("payload", a.payload)]

/-- Encoding of an optional string field under `asdict` (`None` → JSON null). -/
def encodeOptStr : Option String → JVal
  | none => .null
  | some s => .str s

/-- Python `dataclasses.asdict` on `AgentResponse` (field order = declaration order). -/
def AgentResponse.asdict (r : AgentResponse) : JVal :=
  .obj [("status", .str r.status),
        ("responses", .arr r.responses),
        ("thread_id", encodeOptStr r.thread_id),
        ("reason", encodeOptStr r.reason),
        ("usage", match r.usage with | none => .null | some u => u.asdict),
        ("tool_calls", .num r.tool_calls),
        ("inference_rounds", .num r.inference_rounds),
        ("agent_type", r.agent_type),
        ("model_name", encodeOptStr r.model_name),
        ("next_action", match r.next_action with | none => .null | some a => a.asdict)]

/-- Decoding a field declared `str | None`: Python stores the value as-is;
`none` at the outer level means the stored value falls outside the declared
type (not representable in this typed model, and never produced by `asdict`). -/
def decodeOptStr : JVal → Option (Option String)
  | .null => some none
  | .str s => some (some s)
  | _ => none

/-- Keyword expansion `TokenUsage(**d)`: it succeeds exactly when the mapping's
keys are exactly the three field names (anything else raises `TypeError`);
token values outside `int` are outside this typed model. -/
def TokenUsage.from_kwargs (v : JVal) : Option TokenUsage :=
  match v with
  | .obj kvs =>
    match lookupKey kvs "prompt_tokens", lookupKey kvs "completion_tokens",
          lookupKey kvs "total_tokens" with
    | some (.num p), some (.num c), some (.num t) =>
      if kvs.all (fun kv => kv.1 = "prompt_tokens" ∨ kv.1 = "completion_tokens"
                    ∨ kv.1 = "total_tokens") then
        some ⟨p, c, t⟩
      else none
    | _, _, _ => none
  | _ => none

/-- Keyword expansion `NextAction(**d)`: it succeeds exactly when the mapping's
keys are exactly `target_queue` and `payload`. -/
def NextAction.from_kwargs (v : JVal) : Option NextAction :=
  match v with
  | .obj kvs =>
    match lookupKey kvs "target_queue", lookupKey kvs "payload" with
    | some tq, some pl =>
      if kvs.all (fun kv => kv.1 = "target_queue" ∨ kv.1 = "payload") then
        some ⟨tq, pl⟩
      else none
    | _, _ => none
  | _ => none

/-- The constructor arguments of `AgentResponse.from_dict` other than
`status`, decoded as a bundle (pure helper for stating lemmas about the
decoder; the decoding of each field follows `util_classes.py` lines 49-57). -/
structure FromDictRest where
  responses : List JVal
  thread_id : Option String
  reason : Option String
  usage : Option TokenUsage
  tool_calls : Int
  inference_rounds : Int
  agent_type : JVal
  model_name : Option String
  next_action : Option NextAction

/-- Decode every `from_dict` constructor argument except `status`. -/
def AgentResponse.from_dict_rest (kvs : List (String × JVal)) : Option FromDictRest := do
  let responses ← match lookupKey kvs "responses" with
    | none => some ([] : List JVal)
    | some (.arr xs) => some xs
    | some _ => none
  let thread_id ← decodeOptStr ((lookupKey kvs "thread_id").getD .null)
  let reason ← decodeOptStr ((lookupKey kvs "reason").getD .null)
  let usage ← match lookupKey kvs "usage" with
    | none => some (none : Option TokenUsage)
    | some u => if u.truthy then (TokenUsage.from_kwargs u).map some else some none
  let tool_calls ← match lookupKey kvs "tool_calls" with
    | none => some (0 : Int)
    | some (.num n) => some n
    | some _ => none
  let inference_rounds ← match lookupKey kvs "inference_rounds" with
    | none => some (0 : Int)
    | some (.num n) => some n
    | some _ => none
  let agent_type := (lookupKey kvs "agent_type").getD .null
  let model_name ← decodeOptStr ((lookupKey kvs "model_name").getD .null)
  let next_action ← match lookupKey kvs "next_action" with
    | none => some (none : Option NextAction)
    | some a => if a.truthy then (NextAction.from_kwargs a).map some else some none
  some ⟨responses, thread_id, reason, usage, tool_calls,
        inference_rounds, agent_type, model_name, next_action⟩

/-- Method `AgentResponse.from_dict` (`util_classes.py`, lines 44-58): rebuild an
`AgentResponse` from a mapping. `data.get("status", "error")` defaults a
missing status to `"error"`; missing collection/metric fields default to
empty/zero; `usage` and `next_action` are rebuilt by keyword expansion only
when the stored value is truthy. A `none` result models a raised
`TypeError`/`AttributeError` or a value outside the declared field types. -/
def AgentResponse.from_dict (data : JVal) : Option AgentResponse :=
  match data with
  | .obj kvs =>
    (match lookupKey kvs "status" with
      | none => some "error"
      | some (.str s) => some s
      | some _ => none).bind fun status =>
    (AgentResponse.from_dict_rest kvs).map fun (f : FromDictRest) =>
      ⟨status, f.responses, f.thread_id, f.reason, f.usage, f.tool_calls,
        f.inference_rounds, f.agent_type, f.model_name, f.next_action⟩
  | _ => none

example :
    AgentResponse.from_dict (AgentResponse.asdict
      ⟨"success", [.str "hi"], some "t", none, some ⟨1, 2, 3⟩, 4, 5,
        .str "triage", some "gpt", some ⟨.str "agent-tasks", .obj []⟩⟩) =
    some ⟨"success", [.str "hi"], some "t", none, some ⟨1, 2, 3⟩, 4, 5,
        .str "triage", some "gpt", some ⟨.str "agent-tasks", .obj []⟩⟩ := by
  decide

theorem from_dict_asdict_roundtrip (r : AgentResponse) :
    AgentResponse.from_dict r.asdict = some r := by
  obtain ⟨st, rs, tid, rsn, us, tc, ir, aty, mn, na⟩ := r
  cases tid <;> cases rsn <;> cases mn <;>
    rcases us with _ | ⟨p, c, t⟩ <;> rcases na with _ | ⟨tq, pl⟩ <;>
    simp [AgentResponse.asdict, AgentResponse.from_dict, AgentResponse.from_dict_rest,
      lookupKey, encodeOptStr,
      decodeOptStr, TokenUsage.asdict, NextAction.asdict, TokenUsage.from_kwargs,
      NextAction.from_kwargs, JVal.truthy, List.find?]

theorem from_dict_missing_status (kvs : List (String × JVal)) (r : AgentResponse)
    (h : lookupKey kvs "status" = none)
    (hfd : AgentResponse.from_dict (.obj kvs) = some r) : r.status = "error" := by
  simp only [AgentResponse.from_dict, h, Option.some_bind] at hfd
  cases hr : AgentResponse.from_dict_rest kvs with
  | none => rw [hr] at hfd; simp at hfd
  | some f =>
    rw [hr] at hfd
    simp only [Option.map_some', Option.some_inj] at hfd
    rw [← hfd]

/-- C10: Round-trip of the AgentResponse serialization used at the activity
boundary: for every AgentResponse `r` (in particular with `usage` and/or
`next_action` absent or populated), `AgentResponse.from_dict (asdict r) = r`;
and `from_dict` of a mapping missing the `status` key defaults the status to
`"error"`. -/
theorem C10_agent_response_roundtrip :
    (∀ r : AgentResponse, AgentResponse.from_dict r.asdict = some r) ∧
    (∀ (kvs : List (String × JVal)) (r : AgentResponse),
      lookupKey kvs "status" = none →
      AgentResponse.from_dict (.obj kvs) = some r → r.status = "error") :=
  ⟨from_dict_asdict_roundtrip, from_dict_missing_status⟩

/-- Witness for C10 at concrete inputs: an empty mapping decodes to the
all-default response, whose status is `"error"`. -/
theorem C10_agent_response_roundtrip_witness :
    AgentResponse.status ⟨"error", [], none, none, none, 0, 0, .null, none, none⟩
      = "error" :=
  C10_agent_response_roundtrip.2 []
    ⟨"error", [], none, none, none, 0, 0, .null, none, none⟩ (by decide) (by decide)

/-! ## Routing-decision extraction (`agents/app/activity_workflow.py`,
`_determine_next_action`, lines 104-129) -/

/-- Lines 106-116 of `_determine_next_action`: take `responses[0]` (an empty
mapping when `responses` is empty), unwrap a mapping's `raw` key, and JSON-parse
a string value. `parse` stands for `json.loads`; `none` models a
`JSONDecodeError`, on which the function logs and returns no decision. -/
def raw_unwrapped_first (response : AgentResponse) : JVal :=
  let fr0 : JVal := match response.responses with
    | [] => .obj []
    | x :: _ => x
  match fr0 with
  | .obj kvs =>
    match lookupKey kvs "raw" with
    | some w => w
    | none => .obj kvs
  | v => v

/-- The JSON-parse step of lines 111-116 applied to the unwrapped first
response. -/
def resolved_first_response (parse : String → Option JVal)
    (response : AgentResponse) : Option JVal :=
  match raw_unwrapped_first response with
  | .str s => parse s
  | v => some v

/-- Lines 118-129 of `_determine_next_action`: read `next_action` from the
resolved value (if it is a mapping), require it to be a truthy mapping, and
require a truthy `target_queue` different from `"none"`; `payload` defaults
to the empty mapping. -/
def extract_next_action (v : JVal) : Option NextAction :=
  let agent_next_action : JVal := match v with
    | .obj kvs => (lookupKey kvs "next_action").getD .null
    | _ => .null
  if !agent_next_action.truthy then none
  else match agent_next_action with
    | .obj na_kvs =>
      let target_queue : JVal := (lookupKey na_kvs "target_queue").getD .null
      if !target_queue.truthy then none
      else if target_queue = .str "none" then none
      else some ⟨target_queue, (lookupKey na_kvs "payload").getD (.obj [])⟩
    | _ => none

/-- Function `_determine_next_action`: resolve `responses[0]` then extract the routing
decision. Total: every run returns `none` or a `NextAction`; no exception
escapes (the only exception handled in the source, `JSONDecodeError`, is the
`parse s = none` case of `resolved_first_response`). -/
def determine_next_action (parse : String → Option JVal)
    (response : AgentResponse) : Option NextAction :=
  match resolved_first_response parse response with
  | none => none
  | some v => extract_next_action v

example :
    determine_next_action
      (fun s => if s = "payload-json" then
          some (.obj [("next_action",
            .obj [("target_queue", .str "agent-tasks"),
                  ("payload", .obj [("x", .num 1)])])])
        else none)
      { status := "success",
        responses := [.obj [("raw", .str "payload-json")]] } =
    some ⟨.str "agent-tasks", .obj [("x", .num 1)]⟩ := by decide

example :
    determine_next_action (fun _ => none)
      { status := "success", responses := [.str "not json"] } = none := by decide

example :
    determine_next_action (fun _ => none)
      { status := "success",
        responses := [.obj [("next_action",
          .obj [("target_queue", .str "none")])]] } = none := by decide

theorem extract_next_action_eq_some (v : JVal) (a : NextAction) :
    extract_next_action v = some a ↔
      ∃ kvs na_kvs,
        v = .obj kvs ∧
        lookupKey kvs "next_action" = some (.obj na_kvs) ∧
        na_kvs ≠ [] ∧
        lookupKey na_kvs "target_queue" = some a.target_queue ∧
        a.target_queue.truthy ∧
        a.target_queue ≠ .str "none" ∧
        a.payload = (lookupKey na_kvs "payload").getD (.obj []) := by
  constructor
  · intro h
    cases v <;> simp [extract_next_action, JVal.truthy] at h
    case obj kvs =>
      cases hna : lookupKey kvs "next_action" with
      | none => simp only [extract_next_action, hna] at h; simp [JVal.truthy] at h
      | some w =>
        simp only [extract_next_action, hna] at h
        cases w <;> simp [JVal.truthy] at h
        case obj na_kvs =>
          obtain ⟨hne, ht, hn, heq⟩ := h
          cases hlq : lookupKey na_kvs "target_queue" with
          | none => rw [hlq] at ht; simp [JVal.truthy] at ht
          | some tqv =>
            rw [hlq] at ht hn heq
            simp only [Option.getD_some] at ht hn heq
            subst heq
            exact ⟨kvs, na_kvs, rfl, hna, hne, hlq, ht, hn, rfl⟩
  · rintro ⟨kvs, na_kvs, rfl, hna, hne, htq, ht, hn, hpl⟩
    have hobj : (JVal.obj na_kvs).truthy = true := by
      cases na_kvs with
      | nil => exact absurd rfl hne
      | cons hd tl => simp [JVal.truthy]
    simp only [extract_next_action, hna, Option.getD_some, htq]
    rw [if_neg (by simp [hobj]), if_neg (by simp [ht]), if_neg hn, ← hpl]

theorem determine_next_action_eq_some (parse : String → Option JVal)
    (response : AgentResponse) (a : NextAction) :
    determine_next_action parse response = some a ↔
      ∃ kvs na_kvs,
        resolved_first_response parse response = some (.obj kvs) ∧
        lookupKey kvs "next_action" = some (.obj na_kvs) ∧
        na_kvs ≠ [] ∧
        lookupKey na_kvs "target_queue" = some a.target_queue ∧
        a.target_queue.truthy ∧
        a.target_queue ≠ .str "none" ∧
        a.payload = (lookupKey na_kvs "payload").getD (.obj []) := by
  unfold determine_next_action
  cases hr : resolved_first_response parse response with
  | none => simp
  | some v =>
    rw [extract_next_action_eq_some v a]
    constructor
    · rintro ⟨kvs, na_kvs, rfl, h2, h3, h4, h5, h6, h7⟩
      exact ⟨kvs, na_kvs, rfl, h2, h3, h4, h5, h6, h7⟩
    · rintro ⟨kvs, na_kvs, h1, h2, h3, h4, h5, h6, h7⟩
      cases h1
      exact ⟨kvs, na_kvs, rfl, h2, h3, h4, h5, h6, h7⟩

/-- C1: Routing-decision extraction applied to the first element of an
AgentResponse's responses. (1) An empty `responses` list yields no routing
decision. (2) A (possibly `raw`-unwrapped) string value whose JSON parse
fails yields no routing decision, with no exception (`determine_next_action`
is total). (3) The extraction returns `some a` exactly when the resolved
value is a mapping whose `next_action` is a non-empty mapping with a truthy
(`non-empty`) `target_queue` different from `"none"`; `a` is then built from
`target_queue` and `payload` (default: empty mapping). Every other shape
yields no routing decision. -/
theorem C1_routing_extraction (parse : String → Option JVal)
    (response : AgentResponse) :
    (response.responses = [] → determine_next_action parse response = none) ∧
    (∀ s, raw_unwrapped_first response = .str s → parse s = none →
      determine_next_action parse response = none) ∧
    (∀ a, determine_next_action parse response = some a ↔
      ∃ kvs na_kvs,
        resolved_first_response parse response = some (.obj kvs) ∧
        lookupKey kvs "next_action" = some (.obj na_kvs) ∧
        na_kvs ≠ [] ∧
        lookupKey na_kvs "target_queue" = some a.target_queue ∧
        a.target_queue.truthy ∧
        a.target_queue ≠ .str "none" ∧
        a.payload = (lookupKey na_kvs "payload").getD (.obj [])) := by
  refine ⟨?_, ?_, fun a => determine_next_action_eq_some parse response a⟩
  · intro h
    simp [determine_next_action, resolved_first_response, raw_unwrapped_first,
      extract_next_action, lookupKey, JVal.truthy, h]
  · intro s hs hp
    simp [determine_next_action, resolved_first_response, hs, hp]

/-- Witness for C1 at concrete inputs: the spec's §8 example, with the parse
collaborator mapping the raw payload string to its parsed mapping. -/
theorem C1_routing_extraction_witness :
    determine_next_action
      (fun s => if s = "payload-json" then
          some (.obj [("next_action",
            .obj [("target_queue", .str "agent-tasks"),
                  ("payload", .obj [("x", .num 1)])])])
        else none)
      { status := "success",
        responses := [.obj [("raw", .str "payload-json")]] } =
    some ⟨.str "agent-tasks", .obj [("x", .num 1)]⟩ :=
  ((C1_routing_extraction _ _).2.2 _).mpr
    ⟨[("next_action",
        .obj [("target_queue", .str "agent-tasks"),
              ("payload", .obj [("x", .num 1)])])],
      [("target_queue", .str "agent-tasks"), ("payload", .obj [("x", .num 1)])],
      by decide, by decide, by decide, by decide, by decide, by decide, by decide⟩

/-! ## Task Dispatcher (`agents/app/activity_queue.py`, `queue_message`,
lines 18-58) -/

/-- Result dictionary returned by `queue_message`: `success` carries the
queue name and the 1-based attempt count; `error` carries the reason and,
only for exhausted retries, the attempt count (the two configuration errors
return no `attempts` key, hence `none`). `implicitNone` models Python's
implicit `None` return if the loop body never returned (unreachable for
`max_retries = 3`) and a non-mapping activity input. -/
inductive QueueMessageResult where
  | success (queue : JVal) (attempts : Nat)
  | error (reason : String) (attempts : Option Nat)
  | implicitNone
deriving DecidableEq

/-- The retry loop of `queue_message` (lines 36-58): `ok i` tells whether
the `i`-th (0-based) transport send — the `try` body — succeeds, and
`failMsg i` is `str(e)` for the exception it otherwise raises. On the last
attempt's failure the error dictionary carries `attempts = max_retries`;
otherwise the loop sleeps (the 2s, 5s, 10s schedule; wall-clock time is not
modelled) and retries. -/
def queue_send_loop (ok : Nat → Bool) (failMsg : Nat → String) (queue : JVal)
    (max_retries : Nat) (i : Nat) : QueueMessageResult :=
  if _h : i < max_retries then
    if ok i then .success queue (i + 1)
    else if i = max_retries - 1 then .error (failMsg i) (some max_retries)
    else queue_send_loop ok failMsg queue max_retries (i + 1)
  else .implicitNone
termination_by max_retries - i
decreasing_by omega

/-- Activity `queue_message` (`activity_queue.py`): validate the queue name and the
transport configuration, then run the bounded retry loop with
`max_retries = 3`. `configured` models whether
`SERVICE_BUS_CONNECTION_STRING` is set. -/
def queue_message (queueInput : JVal) (configured : Bool)
    (ok : Nat → Bool) (failMsg : Nat → String) : QueueMessageResult :=
  match queueInput with
  | .obj kvs =>
    let queue_name : JVal := (lookupKey kvs "queue").getD .null
    if !queue_name.truthy then .error "No queue name provided" none
    else if !configured then .error "Service Bus not configured" none
    else queue_send_loop ok failMsg queue_name 3 0
  | _ => .implicitNone

theorem queue_send_loop_three (ok : Nat → Bool) (failMsg : Nat → String)
    (q : JVal) :
    queue_send_loop ok failMsg q 3 0 =
      if ok 0 then .success q 1
      else if ok 1 then .success q 2
      else if ok 2 then .success q 3
      else .error (failMsg 2) (some 3) := by
  rw [queue_send_loop, queue_send_loop, queue_send_loop]
  norm_num

/-- C4: the dispatcher retries at most 3 times (2s/5s/10s backoff schedule):
when the first successful send is attempt `n` (0-based, `n < 3`) the result
is `{status: success, attempts: n+1}`; when all 3 sends fail the result is
`{status: error, reason, attempts: 3}`; the result never consults the
transport beyond the first 3 attempts (no fourth attempt); a missing/empty
queue name or an unconfigured transport returns `{status: error, reason}`
immediately, with no `attempts` key and without consulting the transport. -/
theorem C4_dispatcher_retry (kvs : List (String × JVal)) (q : JVal)
    (configured : Bool) (ok ok2 : Nat → Bool) (failMsg failMsg2 : Nat → String) :
    (lookupKey kvs "queue" = some q → q.truthy →
      ((∀ n, n < 3 → ok n = true → (∀ m, m < n → ok m = false) →
        queue_message (.obj kvs) true ok failMsg = .success q (n + 1)) ∧
      ((∀ n, n < 3 → ok n = false) →
        queue_message (.obj kvs) true ok failMsg = .error (failMsg 2) (some 3)) ∧
      ((∀ n, n < 3 → ok n = ok2 n) → (∀ n, n < 3 → failMsg n = failMsg2 n) →
        queue_message (.obj kvs) true ok failMsg =
          queue_message (.obj kvs) true ok2 failMsg2))) ∧
    (lookupKey kvs "queue" = none →
      queue_message (.obj kvs) configured ok failMsg =
        .error "No queue name provided" none) ∧
    (lookupKey kvs "queue" = some q → ¬ q.truthy →
      queue_message (.obj kvs) configured ok failMsg =
        .error "No queue name provided" none) ∧
    (lookupKey kvs "queue" = some q → q.truthy →
      queue_message (.obj kvs) false ok failMsg =
        .error "Service Bus not configured" none) := by
  refine ⟨fun hq ht => ⟨?_, ?_, ?_⟩, ?_, ?_, ?_⟩
  · intro n hn hok hmin
    simp only [queue_message, hq, Option.getD_some, ht, Bool.not_true,
      Bool.false_eq_true, if_false, Bool.not_false, queue_send_loop_three]
    interval_cases n
    · rw [if_pos hok]
    · rw [if_neg (by simp [hmin 0 (by omega)]), if_pos hok]
    · rw [if_neg (by simp [hmin 0 (by omega)]),
        if_neg (by simp [hmin 1 (by omega)]), if_pos hok]
  · intro hfail
    simp only [queue_message, hq, Option.getD_some, ht, Bool.not_true,
      Bool.false_eq_true, if_false, Bool.not_false, queue_send_loop_three]
    rw [if_neg (by simp [hfail 0 (by omega)]),
      if_neg (by simp [hfail 1 (by omega)]),
      if_neg (by simp [hfail 2 (by omega)])]
  · intro hok hmsg
    simp only [queue_message, hq, Option.getD_some, ht, Bool.not_true,
      Bool.false_eq_true, if_false, Bool.not_false, queue_send_loop_three]
    rw [hok 0 (by omega), hok 1 (by omega), hok 2 (by omega),
      hmsg 2 (by omega)]
  · intro hq0
    simp [queue_message, hq0, JVal.truthy]
  · intro hq0 ht0
    simp only [queue_message, hq0, Option.getD_some]
    rw [if_pos (by simp [Bool.not_eq_true] at ht0 ⊢; exact ht0)]
  · intro hq0 ht0
    simp only [queue_message, hq0, Option.getD_some, ht0, Bool.not_true,
      Bool.false_eq_true, if_false, Bool.not_false, if_true]

/-- Witness for C4 at concrete inputs: a transport failing twice then
succeeding yields `{status: success, attempts: 3}` (the spec's §8 scenario). -/
theorem C4_dispatcher_retry_witness :
    queue_message (.obj [("queue", .str "agent-results"), ("payload", .obj [])])
      true (fun n => n == 2) (fun _ => "boom") =
      .success (.str "agent-results") 3 :=
  ((C4_dispatcher_retry [("queue", .str "agent-results"), ("payload", .obj [])]
      (.str "agent-results") true (fun n => n == 2) (fun n => n == 2)
      (fun _ => "boom") (fun _ => "boom")).1
    (by decide) (by decide)).1 2 (by omega) (by decide)
    (fun m hm => by interval_cases m <;> decide)

/-! ## Main orchestrator (`agents/orchestrators/orchestrator_main.py`) -/

/-- A durable orchestration as an interaction tree: it either calls an
activity by name with a JSON input and continues with the activity's
result, returns a value, or raises an exception. -/
inductive OrchProg where
  | callAct (name : String) (input : JVal) (k : JVal → OrchProg)
  | done (result : JVal)
  | exnRaise (msg : String)

/-- Lines 55-59 of `main_orchestrator`: the completed-result dictionary. -/
def completed_result (event_type : JVal) (triage_result : JVal) : JVal :=
  .obj [("status", .str "completed"), ("event_type", event_type),
        ("triage_result", triage_result)]

/-- Orchestrator `main_orchestrator` (lines 17-59) as an interaction tree. The `.get`
calls raise `AttributeError` when the orchestration input or the triage
result is not a mapping; everything else follows the source line by line
(triage activity call, `status == "error"` short-circuit return, truthy
`next_action` with truthy non-`"none"` `target_queue` dispatching through
the `queue_message` activity, completed-result return). -/
def main_orchestrator (input : JVal) : OrchProg :=
  match input with
  | .obj ikvs =>
    let event_type : JVal := (lookupKey ikvs "event_type").getD (.str "unknown")
    .callAct "run_agent_workflow"
      (.obj [("agent_type", .str "triage"), ("payload", .obj ikvs)])
      (fun triage_result =>
        match triage_result with
        | .obj tkvs =>
          if (lookupKey tkvs "status").getD .null = .str "error" then
            .done (.obj [("status", .str "error"),
                         ("reason", (lookupKey tkvs "reason").getD .null)])
          else
            let next_action : JVal := (lookupKey tkvs "next_action").getD .null
            if next_action.truthy then
              match next_action with
              | .obj nkvs =>
                let target_queue : JVal := (lookupKey nkvs "target_queue").getD .null
                let payload : JVal := (lookupKey nkvs "payload").getD (.obj [])
                if target_queue.truthy ∧ target_queue ≠ .str "none" then
                  .callAct "queue_message"
                    (.obj [("queue", target_queue), ("payload", payload)])
                    (fun _ => .done (completed_result event_type (.obj tkvs)))
                else .done (completed_result event_type (.obj tkvs))
              | _ => .exnRaise "AttributeError"
            else .done (completed_result event_type (.obj tkvs))
        | _ => .exnRaise "AttributeError")
  | _ => .exnRaise "AttributeError"

/-- Outcome of executing an orchestration to completion. -/
inductive OrchOutcome where
  | ret (v : JVal)
  | exn (msg : String)
deriving DecidableEq

/-- Execute an orchestration against an oracle `call` supplying each
activity invocation's result. -/
def runOrch (call : String → JVal → JVal) : OrchProg → OrchOutcome
  | .callAct n i k => runOrch call (k (call n i))
  | .done v => .ret v
  | .exnRaise m => .exn m

/-- The activity invocations an orchestration issues, in order. -/
def orchCalls (call : String → JVal → JVal) : OrchProg → List (String × JVal)
  | .callAct n i k => (n, i) :: orchCalls call (k (call n i))
  | .done _ => []
  | .exnRaise _ => []

/-- The activity results consumed by an orchestration, in order (what the
durable runtime records in its step log, one entry per completed step). -/
def orchResults (call : String → JVal → JVal) : OrchProg → List JVal
  | .callAct n i k => call n i :: orchResults call (k (call n i))
  | .done _ => []
  | .exnRaise _ => []

/-- Modelled from the spec (§4.1 replay contract; the engine itself is the
external durable-functions runtime, not repository code): resuming an
orchestration from a persisted step log. While recorded results remain, a
`callAct` consumes the next one verbatim without invoking the activity;
once the log is exhausted, execution continues live through the oracle. -/
def runFromLog (call : String → JVal → JVal) : List JVal → OrchProg → OrchOutcome
  | r :: log, .callAct _ _ k => runFromLog call log (k r)
  | _ :: _, .done v => .ret v
  | _ :: _, .exnRaise m => .exn m
  | [], p => runOrch call p

/-- The activity invocations actually issued during a resumed run
(steps replayed from the log issue none). -/
def callsFromLog (call : String → JVal → JVal) :
    List JVal → OrchProg → List (String × JVal)
  | r :: log, .callAct _ _ k => callsFromLog call log (k r)
  | _ :: _, .done _ => []
  | _ :: _, .exnRaise _ => []
  | [], p => orchCalls call p

theorem replay_from_prefix (call : String → JVal → JVal) (p : OrchProg) :
    ∀ k : Nat,
      runFromLog call ((orchResults call p).take k) p = runOrch call p ∧
      callsFromLog call ((orchResults call p).take k) p =
        (orchCalls call p).drop k := by
  induction p with
  | callAct n i f ih =>
    intro k
    cases k with
    | zero => simp [runFromLog, callsFromLog, List.take_zero, List.drop_zero]
    | succ j =>
      simp only [orchResults, orchCalls, List.take_succ_cons,
        List.drop_succ_cons, runFromLog, callsFromLog]
      exact ih (call n i) j
  | done v => intro k; cases k <;>
      simp [runFromLog, callsFromLog, orchResults, orchCalls, runOrch]
  | exnRaise m => intro k; cases k <;>
      simp [runFromLog, callsFromLog, orchResults, orchCalls, runOrch]

/-- C8: replay safety of one orchestration run. If the first `k` steps of
`main_orchestrator input` completed and their results were durably recorded
(the log is the `take k` prefix of the run's recorded step results), then a
resumed run (1) produces the same final outcome, reusing the recorded
results verbatim, and (2) issues exactly the remaining activity
invocations — the `drop k` suffix — so already-completed steps are never
re-executed. -/
theorem C8_replay_safety (call : String → JVal → JVal) (input : JVal) (k : Nat) :
    runFromLog call ((orchResults call (main_orchestrator input)).take k)
        (main_orchestrator input) = runOrch call (main_orchestrator input) ∧
    callsFromLog call ((orchResults call (main_orchestrator input)).take k)
        (main_orchestrator input) =
      (orchCalls call (main_orchestrator input)).drop k :=
  replay_from_prefix call (main_orchestrator input) k

/-- Durable-runtime lifecycle states surfaced by status queries. -/
inductive RuntimeStatus where
  | Pending
  | Running
  | Completed
  | Failed
  | Terminated
deriving DecidableEq

/-- Modelled from the durable-runtime boundary (the instance store is the
external durable-functions engine, not repository code): the terminal
lifecycle state recorded for an orchestration — an orchestrator that
returns a value (even a value describing an error) completes normally and
is recorded `Completed`; only an orchestrator that raises is recorded
`Failed`. -/
def finalRuntimeStatus : OrchOutcome → RuntimeStatus
  | .ret _ => .Completed
  | .exn _ => .Failed

/-- C2 counterexample: at a concrete input whose triage step returns
`status = error`, the orchestrator returns the error dictionary without
raising, so the durable instance record ends `Completed` — not `failed` as
the claim states. -/
theorem C2_counterexample :
    runOrch
      (fun n _ => if n = "run_agent_workflow" then
          JVal.obj [("status", .str "error"), ("reason", .str "boom")]
        else .obj [])
      (main_orchestrator (.obj [("event_type", .str "order"),
                                ("event_id", .str "42")])) =
      .ret (.obj [("status", .str "error"), ("reason", .str "boom")]) ∧
    finalRuntimeStatus
      (runOrch
        (fun n _ => if n = "run_agent_workflow" then
            JVal.obj [("status", .str "error"), ("reason", .str "boom")]
          else .obj [])
        (main_orchestrator (.obj [("event_type", .str "order"),
                                  ("event_id", .str "42")]))) =
      .Completed ∧
    RuntimeStatus.Completed ≠ RuntimeStatus.Failed := by
  refine ⟨by decide, by decide, by decide⟩

/-- C2 (amended): for every orchestration run whose input is a mapping and
whose triage step returns a mapping with `status = "error"`, the
orchestrator returns `{status: error, reason}` and never invokes the
`queue_message` dispatch activity; the run completes normally — the durable
instance record ends `Completed` (the failure is reported in the output),
not `Failed`. -/
theorem C2_triage_error_short_circuit (call : String → JVal → JVal)
    (ikvs tkvs : List (String × JVal))
    (htr : call "run_agent_workflow"
        (.obj [("agent_type", .str "triage"), ("payload", .obj ikvs)]) =
        .obj tkvs)
    (hst : lookupKey tkvs "status" = some (.str "error")) :
    runOrch call (main_orchestrator (.obj ikvs)) =
      .ret (.obj [("status", .str "error"),
                  ("reason", (lookupKey tkvs "reason").getD .null)]) ∧
    (∀ i, ("queue_message", i) ∉ orchCalls call (main_orchestrator (.obj ikvs))) ∧
    finalRuntimeStatus (runOrch call (main_orchestrator (.obj ikvs))) =
      .Completed := by
  have hcond : (lookupKey tkvs "status").getD .null = JVal.str "error" := by
    rw [hst]; rfl
  refine ⟨?_, ?_, ?_⟩
  · simp only [main_orchestrator, runOrch, htr, hcond, if_pos]
  · intro i hmem
    simp only [main_orchestrator, orchCalls, htr, hcond, if_pos,
      List.mem_singleton, Prod.mk.injEq] at hmem
    exact absurd hmem.1 (by decide)
  · simp only [main_orchestrator, runOrch, htr, hcond, if_pos,
      finalRuntimeStatus]

/-- Witness for the amended C2 at concrete inputs. -/
theorem C2_triage_error_short_circuit_witness :
    runOrch
      (fun n _ => if n = "run_agent_workflow" then
          JVal.obj [("status", .str "error"), ("reason", .str "boom")]
        else .obj [])
      (main_orchestrator (.obj [("event_type", .str "order")])) =
      .ret (.obj [("status", .str "error"), ("reason", .str "boom")]) ∧
    (∀ i, ("queue_message", i) ∉ orchCalls
      (fun n _ => if n = "run_agent_workflow" then
          JVal.obj [("status", .str "error"), ("reason", .str "boom")]
        else .obj [])
      (main_orchestrator (.obj [("event_type", .str "order")]))) ∧
    finalRuntimeStatus
      (runOrch
        (fun n _ => if n = "run_agent_workflow" then
            JVal.obj [("status", .str "error"), ("reason", .str "boom")]
          else .obj [])
        (main_orchestrator (.obj [("event_type", .str "order")]))) =
      .Completed :=
  C2_triage_error_short_circuit _
    [("event_type", .str "order")]
    [("status", .str "error"), ("reason", .str "boom")]
    (by decide) (by decide)

/-! ## Queue consumers and instance-key derivation (`agents/agents.py`) -/

/-- Line 63: `instance_id = f"orchestrate-{event_type}-{event_id}"`. -/
def orchestrator_instance_id (event_type event_id : JVal) : String :=
  "orchestrate-" ++ event_type.pyStr ++ "-" ++ event_id.pyStr

/-- Line 105: `instance_id = f"task-{agent_type}-{task_id}"`. -/
def task_instance_id (agent_type task_id : JVal) : String :=
  "task-" ++ agent_type.pyStr ++ "-" ++ task_id.pyStr

/-- Modelled from the durable-client boundary (the instance store lives in
the external durable-functions runtime, not repository code): per-instance
lifecycle states, plus the runs actually begun. `get_status` reads the
store; `start_new` marks the instance `Pending` and begins a run. -/
structure ClientState where
  statuses : List (String × RuntimeStatus)
  runsStarted : List (String × JVal)
deriving DecidableEq

def ClientState.get_status (st : ClientState) (instance_id : String) :
    Option RuntimeStatus :=
  (st.statuses.find? (fun p => p.1 == instance_id)).map Prod.snd

def ClientState.start_new (st : ClientState) (instance_id : String)
    (client_input : JVal) : ClientState :=
  { statuses := (instance_id, .Pending) :: st.statuses,
    runsStarted := (instance_id, client_input) :: st.runsStarted }

/-- Observable effects of one consumer invocation, in order. -/
inductive ConsumerEffect where
  | logInfo (msg : String)
  | logWarning (msg : String)
  | started (instance_id : String)
  | reRaised (msg : String)
deriving DecidableEq

/-- Consumer `orchestrator_queue_consumer` (`agents.py` lines 45-84), applied to an
already-parsed message body (`json.loads` of the Service Bus message): read
`event_type` and `event_id` (default `"unknown"`), derive the instance id,
skip with a warning when the durable client reports that instance as
`Running` or `Pending`, and otherwise start a new `main_orchestrator` run
with the body as input. A non-mapping body makes `.get` raise
`AttributeError`, which the `except` block logs and re-raises. -/
def orchestrator_queue_consumer (body : JVal) (st : ClientState) :
    ClientState × List ConsumerEffect :=
  match body with
  | .obj kvs =>
    let event_type : JVal := (lookupKey kvs "event_type").getD (.str "unknown")
    let event_id : JVal := (lookupKey kvs "event_id").getD (.str "unknown")
    let instance_id := orchestrator_instance_id event_type event_id
    let infoMsg := "Orchestrator queue: event_type=" ++ event_type.pyStr ++
      ", event_id=" ++ event_id.pyStr
    let startIt : ClientState × List ConsumerEffect :=
      (st.start_new instance_id (.obj kvs),
        [.logInfo infoMsg, .started instance_id,
         .logInfo ("Started orchestration: " ++ instance_id)])
    match st.get_status instance_id with
    | some s =>
      if s = .Running ∨ s = .Pending then
        (st, [.logInfo infoMsg,
              .logWarning ("Orchestration " ++ instance_id ++ " already running")])
      else startIt
    | none => startIt
  | _ => (st, [.reRaised "AttributeError"])

/-- Consumer `task_queue_consumer` (`agents.py` lines 87-125): same shape as the
orchestrator consumer with the `task-{agent_type}-{task_id}` instance id
(`agent_type` has no default: a missing key yields Python `None`). -/
def task_queue_consumer (body : JVal) (st : ClientState) :
    ClientState × List ConsumerEffect :=
  match body with
  | .obj kvs =>
    let agent_type : JVal := (lookupKey kvs "agent_type").getD .null
    let task_id : JVal := (lookupKey kvs "task_id").getD (.str "unknown")
    let instance_id := task_instance_id agent_type task_id
    let infoMsg := "Task queue: agent=" ++ agent_type.pyStr ++
      ", task_id=" ++ task_id.pyStr
    let startIt : ClientState × List ConsumerEffect :=
      (st.start_new instance_id (.obj kvs),
        [.logInfo infoMsg, .started instance_id,
         .logInfo ("Started task orchestration: " ++ instance_id)])
    match st.get_status instance_id with
    | some s =>
      if s = .Running ∨ s = .Pending then
        (st, [.logInfo infoMsg,
              .logWarning ("Task orchestration " ++ instance_id ++
                " already running")])
      else startIt
    | none => startIt
  | _ => (st, [.reRaised "AttributeError"])

/-- The instance id `orchestrator_queue_consumer` derives from a message
body. -/
def orch_body_instance_id (kvs : List (String × JVal)) : String :=
  orchestrator_instance_id ((lookupKey kvs "event_type").getD (.str "unknown"))
    ((lookupKey kvs "event_id").getD (.str "unknown"))

/-- The instance id `task_queue_consumer` derives from a message body. -/
def task_body_instance_id (kvs : List (String × JVal)) : String :=
  task_instance_id ((lookupKey kvs "agent_type").getD .null)
    ((lookupKey kvs "task_id").getD (.str "unknown"))

/-- C3: idempotent start, for both queue consumers. When no run is recorded
for the derived instance key, the first delivery starts exactly one run;
delivering the same body again while that run is `Pending` leaves the
client state unchanged (no second run is started), produces a
warning-level log, and is not an error (nothing is re-raised). -/
theorem C3_idempotent_start (kvs : List (String × JVal)) (st : ClientState) :
    (st.get_status (orch_body_instance_id kvs) = none →
      (orchestrator_queue_consumer (.obj kvs) st).1.runsStarted =
          (orch_body_instance_id kvs, .obj kvs) :: st.runsStarted ∧
      (orchestrator_queue_consumer (.obj kvs)
          (orchestrator_queue_consumer (.obj kvs) st).1).1 =
        (orchestrator_queue_consumer (.obj kvs) st).1 ∧
      (∃ m, ConsumerEffect.logWarning m ∈
        (orchestrator_queue_consumer (.obj kvs)
          (orchestrator_queue_consumer (.obj kvs) st).1).2) ∧
      (∀ i, ConsumerEffect.started i ∉
        (orchestrator_queue_consumer (.obj kvs)
          (orchestrator_queue_consumer (.obj kvs) st).1).2) ∧
      (∀ m, ConsumerEffect.reRaised m ∉
        (orchestrator_queue_consumer (.obj kvs)
          (orchestrator_queue_consumer (.obj kvs) st).1).2)) ∧
    (st.get_status (task_body_instance_id kvs) = none →
      (task_queue_consumer (.obj kvs) st).1.runsStarted =
          (task_body_instance_id kvs, .obj kvs) :: st.runsStarted ∧
      (task_queue_consumer (.obj kvs)
          (task_queue_consumer (.obj kvs) st).1).1 =
        (task_queue_consumer (.obj kvs) st).1 ∧
      (∃ m, ConsumerEffect.logWarning m ∈
        (task_queue_consumer (.obj kvs)
          (task_queue_consumer (.obj kvs) st).1).2) ∧
      (∀ i, ConsumerEffect.started i ∉
        (task_queue_consumer (.obj kvs)
          (task_queue_consumer (.obj kvs) st).1).2) ∧
      (∀ m, ConsumerEffect.reRaised m ∉
        (task_queue_consumer (.obj kvs)
          (task_queue_consumer (.obj kvs) st).1).2)) := by
  constructor
  · intro h
    simp only [orch_body_instance_id] at h
    have h2 : (st.start_new
        (orchestrator_instance_id
          ((lookupKey kvs "event_type").getD (.str "unknown"))
          ((lookupKey kvs "event_id").getD (.str "unknown"))) (.obj kvs)).get_status
        (orchestrator_instance_id
          ((lookupKey kvs "event_type").getD (.str "unknown"))
          ((lookupKey kvs "event_id").getD (.str "unknown"))) = some .Pending := by
      simp [ClientState.start_new, ClientState.get_status, List.find?]
    refine ⟨?_, ?_, ?_, ?_, ?_⟩
    · simp [orchestrator_queue_consumer, orch_body_instance_id, h,
        ClientState.start_new]
    · simp [orchestrator_queue_consumer, orch_body_instance_id, h, h2]
    · simp [orchestrator_queue_consumer, orch_body_instance_id, h, h2]
    · simp [orchestrator_queue_consumer, orch_body_instance_id, h, h2]
    · simp [orchestrator_queue_consumer, orch_body_instance_id, h, h2]
  · intro h
    simp only [task_body_instance_id] at h
    have h2 : (st.start_new
        (task_instance_id ((lookupKey kvs "agent_type").getD .null)
          ((lookupKey kvs "task_id").getD (.str "unknown"))) (.obj kvs)).get_status
        (task_instance_id ((lookupKey kvs "agent_type").getD .null)
          ((lookupKey kvs "task_id").getD (.str "unknown"))) = some .Pending := by
      simp [ClientState.start_new, ClientState.get_status, List.find?]
    refine ⟨?_, ?_, ?_, ?_, ?_⟩
    · simp [task_queue_consumer, task_body_instance_id, h,
        ClientState.start_new]
    · simp [task_queue_consumer, task_body_instance_id, h, h2]
    · simp [task_queue_consumer, task_body_instance_id, h, h2]
    · simp [task_queue_consumer, task_body_instance_id, h, h2]
    · simp [task_queue_consumer, task_body_instance_id, h, h2]

/-- Witness for C3 at concrete inputs: a fresh client state and the spec's
§8 body; the first delivery starts one run, the duplicate delivery is a
warned no-op. -/
theorem C3_idempotent_start_witness :
    ((ClientState.mk [] []).get_status
        (orch_body_instance_id
          [("event_type", .str "order"), ("event_id", .str "42")]) = none) ∧
    (orchestrator_queue_consumer
        (.obj [("event_type", .str "order"), ("event_id", .str "42")])
        (ClientState.mk [] [])).1.runsStarted =
      [(orch_body_instance_id
          [("event_type", .str "order"), ("event_id", .str "42")],
        .obj [("event_type", .str "order"), ("event_id", .str "42")])] :=
  ⟨by decide,
    ((C3_idempotent_start
        [("event_type", .str "order"), ("event_id", .str "42")]
        (ClientState.mk [] [])).1 (by decide)).1⟩

/-- C5 counterexample: instance-key derivation is not injective over all
`(event_type, event_id)` pairs — the distinct pairs `("a-b", "c")` and
`("a", "b-c")` both derive `"orchestrate-a-b-c"`. -/
theorem C5_counterexample :
    orchestrator_instance_id (.str "a-b") (.str "c") =
      orchestrator_instance_id (.str "a") (.str "b-c") ∧
    ¬ ((JVal.str "a-b", JVal.str "c") = (JVal.str "a", JVal.str "b-c")) :=
  ⟨by decide, by decide⟩

theorem append_hyphen_cancel :
    ∀ (a b x y : List Char), '-' ∉ a → '-' ∉ b →
      a ++ '-' :: x = b ++ '-' :: y → a = b ∧ x = y := by
  intro a
  induction a with
  | nil =>
    intro b x y _ hb h
    cases b with
    | nil =>
      simp only [List.nil_append, List.cons.injEq, true_and] at h
      exact ⟨rfl, h⟩
    | cons c cs =>
      simp only [List.nil_append, List.cons_append, List.cons.injEq] at h
      exact absurd (h.1 ▸ List.mem_cons_self c cs) hb
  | cons c cs ih =>
    intro b x y ha hb h
    cases b with
    | nil =>
      simp only [List.cons_append, List.nil_append, List.cons.injEq] at h
      exact absurd (h.1 ▸ List.mem_cons_self c cs) ha
    | cons d ds =>
      simp only [List.cons_append, List.cons.injEq] at h
      obtain ⟨rfl, h2⟩ := h
      obtain ⟨h3, h4⟩ := ih ds x y
        (fun hm => ha (List.mem_cons_of_mem _ hm))
        (fun hm => hb (List.mem_cons_of_mem _ hm)) h2
      exact ⟨by rw [h3], h4⟩

theorem orchestrator_instance_id_inj (t1 i1 t2 i2 : String)
    (h1 : '-' ∉ t1.data) (h2 : '-' ∉ t2.data)
    (h : orchestrator_instance_id (.str t1) (.str i1) =
      orchestrator_instance_id (.str t2) (.str i2)) : t1 = t2 ∧ i1 = i2 := by
  unfold orchestrator_instance_id at h
  simp only [JVal.pyStr] at h
  have hd := congrArg String.data h
  simp only [String.data_append, List.append_assoc,
    List.singleton_append] at hd
  have hd2 := List.append_cancel_left hd
  obtain ⟨ht, hi⟩ := append_hyphen_cancel _ _ _ _ h1 h2 hd2
  exact ⟨String.ext ht, String.ext hi⟩

/-- C5 (amended): instance-key derivation is a deterministic function of
`(event_type, event_id)` — repeated derivation yields the same key — and it
is injective on pairs whose `event_type` contains no hyphen; for
hyphen-containing event types distinct pairs can collide
(`("a-b","c")` and `("a","b-c")` both derive `"orchestrate-a-b-c"`). -/
theorem C5_instance_key_derivation :
    (∀ et ei : JVal,
      orchestrator_instance_id et ei = orchestrator_instance_id et ei) ∧
    (∀ t1 i1 t2 i2 : String, '-' ∉ t1.data → '-' ∉ t2.data →
      orchestrator_instance_id (.str t1) (.str i1) =
        orchestrator_instance_id (.str t2) (.str i2) →
      t1 = t2 ∧ i1 = i2) :=
  ⟨fun _ _ => rfl, orchestrator_instance_id_inj⟩

/-- Witness for the amended C5 at concrete inputs. -/
theorem C5_instance_key_derivation_witness :
    ("order" : String) = "order" ∧ ("42" : String) = "42" :=
  C5_instance_key_derivation.2 "order" "42" "order" "42"
    (by decide) (by decide) rfl

/-! ## Workflow Step Executor (`agents/app/activity_workflow.py`,
`run_agent_workflow` lines 20-87 and `_track_usage` lines 132-146) -/

/-- One invocation of the external telemetry collaborator
`track_token_usage`, with the arguments `_track_usage` passes:
`response.model_name or "unknown"`, the usage token counts, the agent type
and the inference-round count (`started_at` wall-clock time is not
modelled). -/
structure TrackCall where
  model_name : String
  input_tokens : Int
  output_tokens : Int
  agent_type : JVal
  inference_rounds : Int
deriving DecidableEq

/-- Function `_track_usage` (lines 132-146): when (and only when) the response
carries usage data, invoke the telemetry collaborator; an exception from
the attempt (`track c = .error e`) is caught and logged. Returns the
invocations made and the swallowed error text; nothing propagates. -/
def track_usage (response : AgentResponse) (agent_type : JVal)
    (track : TrackCall → Except String Unit) :
    List TrackCall × Option String :=
  match response.usage with
  | none => ([], none)
  | some u =>
    let c : TrackCall :=
      { model_name := match response.model_name with
          | none => "unknown"
          | some s => if s = "" then "unknown" else s,
        input_tokens := u.prompt_tokens,
        output_tokens := u.completion_tokens,
        agent_type := agent_type,
        inference_rounds := response.inference_rounds }
    match track c with
    | .ok _ => ([c], none)
    | .error e => ([c], some e)

/-- Everything `run_agent_workflow` observably does in this model: the
returned `AgentResponse` (the source returns its `asdict`), the telemetry
invocations made, and the swallowed telemetry error (if any). -/
structure WorkflowRun where
  response : AgentResponse
  trackCalls : List TrackCall
  trackSwallowed : Option String
deriving DecidableEq

/-- Activity `run_agent_workflow` for a mapping activity input (the parameter is
`dict`-annotated and read with `.get`; the orchestrator always passes a
dictionary). External collaborators are parameters: `loadPrompt` is
`_load_system_prompt`'s outcome (filesystem; `.error e` = an exception with
text `e`), `execute p payload` is `backend.execute` on system prompt `p`
and the message built from `payload` (`.ok none` = a falsy result,
`.error e` = an exception with text `e`), `track` is the telemetry
collaborator, `parse` the JSON parser. The `try` block catches every
exception `e` and returns `AgentResponse(status="error", responses=[],
reason=str(e), agent_type=agent_type)`; a falsy gateway result returns the
`"No response from agent: ..."` error; otherwise the response is enriched
with `agent_type` and the extracted `next_action`, and telemetry is
attempted fail-safe. The model is total: no exception propagates. -/
def run_agent_workflow (kvs : List (String × JVal))
    (loadPrompt : Except String String)
    (execute : String → JVal → Except String (Option AgentResponse))
    (track : TrackCall → Except String Unit)
    (parse : String → Option JVal) : WorkflowRun :=
  let agent_type : JVal := (lookupKey kvs "agent_type").getD .null
  let payload : JVal := (lookupKey kvs "payload").getD (.obj [])
  match loadPrompt with
  | .error e =>
    ⟨⟨"error", [], none, some e, none, 0, 0, agent_type, none, none⟩, [], none⟩
  | .ok system_prompt =>
    match execute system_prompt payload with
    | .error e =>
      ⟨⟨"error", [], none, some e, none, 0, 0, agent_type, none, none⟩, [], none⟩
    | .ok none =>
      ⟨⟨"error", [], none,
        some ("No response from agent: " ++ agent_type.pyStr), none, 0, 0,
        agent_type, none, none⟩, [], none⟩
    | .ok (some resp) =>
      let resp1 := { resp with agent_type := agent_type }
      let resp2 := { resp1 with next_action := determine_next_action parse resp1 }
      let tr := track_usage resp2 agent_type track
      ⟨resp2, tr.1, tr.2⟩

/-- C6 counterexample: with the gateway returning no result for agent type
`"triage"`, the returned reason is `"No response from agent: triage"`
(capital `N`, as the source writes it), which is not the claim's literal
`"no response from agent: triage"`. -/
theorem C6_counterexample :
    (run_agent_workflow [("agent_type", .str "triage")] (.ok "p")
        (fun _ _ => .ok none) (fun _ => .ok ()) (fun _ => none)).response.reason =
      some "No response from agent: triage" ∧
    ("No response from agent: triage" : String) ≠
      "no response from agent: triage" :=
  ⟨by decide, by decide⟩

/-- C6 (amended): the Workflow Step Executor never propagates an exception —
the model is total, returning a response for every collaborator outcome. If
the Backend Gateway returns no result, it returns
`AgentResponse(status="error", responses=[],
reason="No response from agent: <agent_type>", agent_type=agent_type)`
(capital `N`); and for any exception text `e` raised during prompt loading
or execution, it returns `AgentResponse(status="error", responses=[],
reason=str(e), agent_type=agent_type)` instead of raising. -/
theorem C6_executor_error_handling (kvs : List (String × JVal))
    (loadPrompt : Except String String)
    (execute : String → JVal → Except String (Option AgentResponse))
    (track : TrackCall → Except String Unit) (parse : String → Option JVal) :
    (∀ p, loadPrompt = .ok p →
      execute p ((lookupKey kvs "payload").getD (.obj [])) = .ok none →
      (run_agent_workflow kvs loadPrompt execute track parse).response =
        ⟨"error", [], none,
          some ("No response from agent: " ++
            ((lookupKey kvs "agent_type").getD .null).pyStr), none, 0, 0,
          (lookupKey kvs "agent_type").getD .null, none, none⟩) ∧
    (∀ e, loadPrompt = .error e →
      (run_agent_workflow kvs loadPrompt execute track parse).response =
        ⟨"error", [], none, some e, none, 0, 0,
          (lookupKey kvs "agent_type").getD .null, none, none⟩) ∧
    (∀ p e, loadPrompt = .ok p →
      execute p ((lookupKey kvs "payload").getD (.obj [])) = .error e →
      (run_agent_workflow kvs loadPrompt execute track parse).response =
        ⟨"error", [], none, some e, none, 0, 0,
          (lookupKey kvs "agent_type").getD .null, none, none⟩) := by
  refine ⟨?_, ?_, ?_⟩
  · rintro p rfl hex
    simp [run_agent_workflow, hex]
  · rintro e rfl
    simp [run_agent_workflow]
  · rintro p e rfl hex
    simp [run_agent_workflow, hex]

/-- Witness for the amended C6 at concrete inputs. -/
theorem C6_executor_error_handling_witness :
    (run_agent_workflow [("agent_type", .str "triage")] (.ok "p")
        (fun _ _ => .ok none) (fun _ => .ok ()) (fun _ => none)).response =
      ⟨"error", [], none,
        some ("No response from agent: " ++
          ((lookupKey [("agent_type", JVal.str "triage")] "agent_type").getD
            .null).pyStr), none, 0, 0,
        (lookupKey [("agent_type", JVal.str "triage")] "agent_type").getD .null,
        none, none⟩ :=
  (C6_executor_error_handling [("agent_type", .str "triage")] (.ok "p")
      (fun _ _ => .ok none) (fun _ => .ok ()) (fun _ => none)).1
    "p" rfl rfl

/-- C7 counterexample: an execution whose backend raises returns an error
response but makes no telemetry recording attempt at all — `_track_usage`
is reached only on the path where the gateway produced a response — so it
is not the case that every execution attempts to record token usage. -/
theorem C7_counterexample :
    (run_agent_workflow [("agent_type", .str "triage")] (.ok "p")
        (fun _ _ => .error "boom") (fun _ => .ok ()) (fun _ => none)).response.status
      = "error" ∧
    (run_agent_workflow [("agent_type", .str "triage")] (.ok "p")
        (fun _ _ => .error "boom") (fun _ => .ok ()) (fun _ => none)).trackCalls
      = [] :=
  ⟨by decide, by decide⟩

/-- C7 (amended): telemetry is strictly best-effort, and is attempted
exactly on executions where the gateway produced a response carrying usage
data. (1) The step's returned AgentResponse is identical for every
behaviour of the telemetry collaborator — telemetry failures are swallowed
(logged only) and never propagate. (2) On failure paths (prompt-load or
execution exceptions, or a gateway returning no result) no telemetry
invocation is made. (3) On the success path, if the response carries no
usage data there is no invocation; if it carries usage `u` there is exactly
one invocation, with `model_name or "unknown"`, the usage token counts, the
agent type and the inference-round count, and an exception text `e` from
the collaborator is swallowed into the logged `trackSwallowed`, leaving the
response unchanged. -/
theorem C7_telemetry_best_effort (kvs : List (String × JVal))
    (loadPrompt : Except String String)
    (execute : String → JVal → Except String (Option AgentResponse))
    (track track2 : TrackCall → Except String Unit)
    (parse : String → Option JVal) :
    ((run_agent_workflow kvs loadPrompt execute track parse).response =
      (run_agent_workflow kvs loadPrompt execute track2 parse).response) ∧
    (∀ e, loadPrompt = .error e →
      (run_agent_workflow kvs loadPrompt execute track parse).trackCalls = []) ∧
    (∀ p e, loadPrompt = .ok p →
      execute p ((lookupKey kvs "payload").getD (.obj [])) = .error e →
      (run_agent_workflow kvs loadPrompt execute track parse).trackCalls = []) ∧
    (∀ p, loadPrompt = .ok p →
      execute p ((lookupKey kvs "payload").getD (.obj [])) = .ok none →
      (run_agent_workflow kvs loadPrompt execute track parse).trackCalls = []) ∧
    (∀ p resp, loadPrompt = .ok p →
      execute p ((lookupKey kvs "payload").getD (.obj [])) = .ok (some resp) →
      ((resp.usage = none →
        (run_agent_workflow kvs loadPrompt execute track parse).trackCalls = []) ∧
      (∀ u, resp.usage = some u →
        (run_agent_workflow kvs loadPrompt execute track parse).trackCalls =
          [⟨match resp.model_name with
              | none => "unknown"
              | some s => if s = "" then "unknown" else s,
            u.prompt_tokens, u.completion_tokens,
            (lookupKey kvs "agent_type").getD .null,
            resp.inference_rounds⟩] ∧
        (∀ e, track ⟨match resp.model_name with
              | none => "unknown"
              | some s => if s = "" then "unknown" else s,
            u.prompt_tokens, u.completion_tokens,
            (lookupKey kvs "agent_type").getD .null,
            resp.inference_rounds⟩ = .error e →
          (run_agent_workflow kvs loadPrompt execute track parse).trackSwallowed =
            some e)))) := by
  refine ⟨?_, ?_, ?_, ?_, ?_⟩
  · cases loadPrompt with
    | error e => simp [run_agent_workflow]
    | ok p =>
      cases hex : execute p ((lookupKey kvs "payload").getD (.obj [])) with
      | error e => simp [run_agent_workflow, hex]
      | ok r => cases r <;> simp [run_agent_workflow, hex]
  · rintro e rfl
    simp [run_agent_workflow]
  · rintro p e rfl hex
    simp [run_agent_workflow, hex]
  · rintro p rfl hex
    simp [run_agent_workflow, hex]
  · rintro p resp rfl hex
    refine ⟨?_, ?_⟩
    · intro hu
      simp [run_agent_workflow, hex, track_usage, hu]
    · intro u hu
      constructor
      · cases htr : track ⟨match resp.model_name with
            | none => "unknown"
            | some s => if s = "" then "unknown" else s,
          u.prompt_tokens, u.completion_tokens,
          (lookupKey kvs "agent_type").getD .null,
          resp.inference_rounds⟩ <;>
        simp [run_agent_workflow, hex, track_usage, hu, htr]
      · intro e htr
        simp [run_agent_workflow, hex, track_usage, hu, htr]

/-- Witness for the amended C7 at concrete inputs: a populated usage record
and a failing collaborator produce exactly one recorded invocation and a
swallowed error. -/
theorem C7_telemetry_best_effort_witness :
    (run_agent_workflow [("agent_type", .str "triage")] (.ok "p")
        (fun _ _ => .ok (some ⟨"success", [], none, none, some ⟨3, 4, 7⟩, 0, 2,
          .null, some "gpt", none⟩))
        (fun _ => .error "telemetry down") (fun _ => none)).trackCalls =
      [⟨"gpt", 3, 4, .str "triage", 2⟩] :=
  (((C7_telemetry_best_effort [("agent_type", .str "triage")] (.ok "p")
      (fun _ _ => .ok (some ⟨"success", [], none, none, some ⟨3, 4, 7⟩, 0, 2,
        .null, some "gpt", none⟩))
      (fun _ => .error "telemetry down") (fun _ => .ok ())
      (fun _ => none)).2.2.2.2
    "p" ⟨"success", [], none, none, some ⟨3, 4, 7⟩, 0, 2, .null, some "gpt", none⟩
    rfl rfl).2 ⟨3, 4, 7⟩ rfl).1
